import Mathlib

/-!
Verification of the dashpipe streaming server (`src/server.js`).

The server keeps two in-memory token stores (session tokens and short-lived
CDN tokens), validates tokens with lazy deletion of expired records, builds a
DASH manifest embedding the CDN token into every representation URL, proxies
segment requests upstream, and sweeps expired records periodically.

The shallow embedding below translates the relevant JavaScript functions into
Lean.  Times are naturals (milliseconds, as returned by `Date.now()`).  The
`Map` stores are association lists with unique keys.  The cryptographic hash
functions from Node's `crypto` module (`md5` hex digest and `sha256`
base64url digest) are external library code and are passed as explicit
`String → String` parameters; theorems that depend on hash uniqueness carry
an explicit collision-freeness hypothesis.  `Math.random()` draws are passed
as explicit parameters (the coin for the CDN token tag, the pool index for
the CDN server pick).
-/

namespace Dashpipe

/-- The `SECRET` constant from `server.js`. -/
def SECRET : String := "proxy_secret_key_!@#$"

/-- The `CDN_SECRET` constant from `server.js`. -/
def CDN_SECRET : String := "cdn_secret_key_$%^&"

/-- The `SESSION_TTL = 60 * 60 * 1000` (one hour in ms). -/
def SESSION_TTL : Nat := 60 * 60 * 1000

/-- The `CDN_TTL = 60 * 1000` (sixty seconds in ms). -/
def CDN_TTL : Nat := 60 * 1000

/-- The `CDN_POOL = ['cs5', 'cs6', 'cs7', 'cs8']`. -/
def CDN_POOL : List String := ["cs5", "cs6", "cs7", "cs8"]

/-- The `USERS` table from `server.js` (username to password). -/
def USERS : List (String × String) :=
  [("demo", "demo123"), ("test", "test456"), ("admin", "admin789")]

/-- The `UPSTREAM` host constant. -/
def UPSTREAM : String := "storage.googleapis.com"

/-- The `UPSTREAM_BASE` path constant. -/
def UPSTREAM_BASE : String := "/shaka-demo-assets/angel-one-clearkey"

/-- Fuel-driven digit expansion (structural recursion so that concrete
values reduce by evaluation); with fuel above `n` this is the standard
most-significant-first decimal expansion. -/
def toDecimalAux : Nat → Nat → List Char
  | 0, _ => []
  | fuel + 1, n =>
    if n < 10 then [Nat.digitChar n]
    else toDecimalAux fuel (n / 10) ++ [Nat.digitChar (n % 10)]

/-- Decimal digit list of a natural number, least significant digit last;
models the decimal rendering that a JavaScript template literal performs on
a number (`Date.now()` timestamps are nonnegative integers). -/
def toDecimal (n : Nat) : List Char := toDecimalAux (n + 1) n

/-- Decimal string of a natural number (interpolation of a timestamp). -/
def natStr (n : Nat) : String := String.mk (toDecimal n)

/-- A JavaScript `Map` keyed by strings, as an association list with unique
keys (insertion overwrites, deletion removes the key). -/
abbrev Store (α : Type) := List (String × α)

/-- The `map.get(k)`. -/
def Store.get {α : Type} (s : Store α) (k : String) : Option α :=
  List.lookup k s

/-- The `map.delete(k)`. -/
def Store.erase {α : Type} (s : Store α) (k : String) : Store α :=
  s.filter (fun kv => kv.1 != k)

/-- The `map.set(k, v)` (insert or overwrite). -/
def Store.set {α : Type} (s : Store α) (k : String) (v : α) : Store α :=
  (k, v) :: s.erase k

/-- A record of `sessionStore`: `{ userId, ip, createdAt, expiresAt }`. -/
structure SessionData where
  userId : String
  ip : String
  createdAt : Nat
  expiresAt : Nat
  deriving Repr, DecidableEq

/-- A record of `cdnTokenStore`:
`{ sessionToken, cdnServer, channel, createdAt, expiresAt }`. -/
structure CdnData where
  sessionToken : String
  cdnServer : String
  channel : String
  createdAt : Nat
  expiresAt : Nat
  deriving Repr, DecidableEq

/-- The raw string hashed by `createSessionToken`:
`` `${userId}:${ip}:${ts}:${SECRET}` ``. -/
def sessionRaw (userId ip : String) (ts : Nat) : String :=
  userId ++ ":" ++ ip ++ ":" ++ natStr ts ++ ":" ++ SECRET

/-- The `createSessionToken(userId, ip)`; `md5hex` models
`crypto.createHash('md5').update(raw).digest('hex')`, `ts` models
`Date.now()`.  Returns the token and the updated store. -/
def createSessionToken (md5hex : String → String) (userId ip : String)
    (ts : Nat) (s : Store SessionData) : String × Store SessionData :=
  let tok := md5hex (sessionRaw userId ip ts)
  (tok, s.set tok ⟨userId, ip, ts, ts + SESSION_TTL⟩)

/-- Result of `checkSessionToken`: `{ ok: true, session }` or
`{ ok: false, reason }`. -/
inductive SessCheck where
  | valid (session : SessionData)
  | invalid (reason : String)
  deriving Repr, DecidableEq

/-- The `checkSessionToken(token, ip)`: not-found, or lazy-delete on expiry, or
valid.  Returns the result together with the store after the side effect. -/
def checkSessionToken (s : Store SessionData) (token : String) (now : Nat) :
    SessCheck × Store SessionData :=
  match s.get token with
  | none => (.invalid "token not found", s)
  | some r =>
    if now > r.expiresAt then (.invalid "token expired", s.erase token)
    else (.valid r, s)

/-- The raw string hashed by `createCdnToken`:
`` `${sessionToken}:${cdnServer}:${channel}:${ts}:${CDN_SECRET}` ``. -/
def cdnRaw (sessionToken cdnServer channel : String) (ts : Nat) : String :=
  sessionToken ++ ":" ++ cdnServer ++ ":" ++ channel ++ ":" ++ natStr ts
    ++ ":" ++ CDN_SECRET

/-- The `createCdnToken(sessionToken, cdnServer, channel)`; `sha` models
`crypto.createHash('sha256').update(raw).digest('base64url')`, `coin` models
`Math.random() > 0.5`, `ts` models `Date.now()`.  The token is the cosmetic
prefix tag, an `@`, and the first 36 characters of the digest. -/
def createCdnToken (sha : String → String) (coin : Bool)
    (sessionToken cdnServer channel : String) (ts : Nat)
    (st : Store CdnData) : String × Store CdnData :=
  let body := (sha (cdnRaw sessionToken cdnServer channel ts)).take 36
  let pfx := if coin then "1ab" else "1aa"
  let tok := pfx ++ "@" ++ body
  (tok, st.set tok ⟨sessionToken, cdnServer, channel, ts, ts + CDN_TTL⟩)

/-- Result of `checkCdnToken`: `{ ok: true, data, secsLeft }` or
`{ ok: false, reason }`. -/
inductive CdnCheck where
  | valid (data : CdnData) (secsLeft : Nat)
  | invalid (reason : String)
  deriving Repr, DecidableEq

/-- The `Math.round((t.expiresAt - Date.now()) / 1000)` when `now ≤ exp`
(millisecond difference rounded to seconds, halves up). -/
def roundSecs (exp now : Nat) : Nat := (exp - now + 500) / 1000

/-- The `checkCdnToken(token)`: not-found, or lazy-delete on expiry, or valid
with the remaining whole seconds. -/
def checkCdnToken (st : Store CdnData) (token : String) (now : Nat) :
    CdnCheck × Store CdnData :=
  match st.get token with
  | none => (.invalid "CDN token not found — may have expired", st)
  | some t =>
    if now > t.expiresAt then
      (.invalid "CDN token expired (60s limit reached)", st.erase token)
    else (.valid t (roundSecs t.expiresAt now), st)

/-- Upper-case hexadecimal digit. -/
def hexDigitU (n : Nat) : Char :=
  if n < 10 then Char.ofNat (48 + n) else Char.ofNat (55 + n)

/-- Percent-encoding of one byte, `%XX` with upper-case hex. -/
def pctByte (b : Nat) : List Char :=
  ['%', hexDigitU (b / 16), hexDigitU (b % 16)]

/-- UTF-8 byte sequence of a Unicode code point. -/
def utf8Bytes (n : Nat) : List Nat :=
  if n < 128 then [n]
  else if n < 2048 then [192 + n / 64, 128 + n % 64]
  else if n < 65536 then
    [224 + n / 4096, 128 + (n / 64) % 64, 128 + n % 64]
  else
    [240 + n / 262144, 128 + (n / 4096) % 64, 128 + (n / 64) % 64,
      128 + n % 64]

/-- The characters JavaScript `encodeURIComponent` leaves unescaped:
ASCII alphanumerics and `- _ . ! ~ * ' ( )`. -/
def uriUnreserved (c : Char) : Bool :=
  c.isAlphanum || c == '-' || c == '_' || c == '.' || c == '!' || c == '~'
    || c == '*' || c == Char.ofNat 39 || c == '(' || c == ')'

/-- The `encodeURIComponent` on one character. -/
def encodeChar (c : Char) : List Char :=
  if uriUnreserved c then [c]
  else ((utf8Bytes c.toNat).map pctByte).flatten

/-- JavaScript `encodeURIComponent`. -/
def encodeURIComponent (s : String) : String :=
  String.mk ((s.data.map encodeChar).flatten)

/-- JavaScript string whitespace for `trim`. -/
def jsWhitespace (c : Char) : Bool :=
  c == ' ' || c == '\n' || c == '\t' || c == '\r'

/-- JavaScript `String.prototype.trim`. -/
def jsTrim (s : String) : String :=
  String.mk
    (((s.data.dropWhile jsWhitespace).reverse.dropWhile jsWhitespace).reverse)

/-- The `` `http://${host}/cdn/${encodeURIComponent(cdnToken)}/seg/` `` —
the per-representation base delivery URL inside `buildMpd`. -/
def segBase (host cdnToken : String) : String :=
  "http://" ++ host ++ "/cdn/" ++ encodeURIComponent cdnToken ++ "/seg/"

/-- The `` `http://${host}/license` `` — the license URL inside `buildMpd`. -/
def licUrl (host : String) : String :=
  "http://" ++ host ++ "/license"

/-- Literal chunk 0 of the MPD template in `buildMpd`. -/
def mpdChunk0 : String :=
  "<?xml version=\"1.0\" encoding=\"UTF-8\"?>\n<!--\n  ╔═══════════════" ++ "═══════════════" ++ "═══════════════" ++ "═╗\n  ║  DASHPIPE — Generated Manifest               ║\n  ║  CDN Token : "

/-- Literal chunk 1 of the MPD template in `buildMpd`. -/
def mpdChunk1 : String :=
  "...     ║\n  ║  License   : "

/-- Literal chunk 2 of the MPD template in `buildMpd`. -/
def mpdChunk2 : String :=
  "                       ║\n  ║  DRM Type  : ClearKey (AES-128-CTR / CENC)  ║\n  ╚═══════════════" ++ "═══════════════" ++ "═══════════════" ++ "═╝\n-->\n<MPD xmlns=\"urn:mpeg:dash:schema:mpd:2011\"\n     xmlns:cenc=\"urn:mpeg:cenc:2013\"\n     xmlns:mspr=\"urn:microsoft:playready\"\n     profiles=\"urn:mpeg:dash:profile:isoff-on-demand:2011\"\n     type=\"static\"\n     mediaPresentationDuration=\"PT1M14.167S\"\n     minBufferTime=\"PT1.5S\">\n\n  <Period id=\"0\" start=\"PT0S\">\n\n    <!-- ── VIDEO TRACKS ────────────────────────────────── -->\n    <AdaptationSet id=\"1\" contentType=\"video\" mimeType=\"video/mp4\"\n                   codecs=\"avc1.42c00d\" frameRate=\"25\" par=\"16:9\">\n\n      <!-- DRM: ClearKey — license server is OUR local endpoint -->\n      <ContentProtection\n        schemeIdUri=\"urn:uuid:e2719d58-a985-b3c9-781a-b030af78d30e\"\n        value=\"ClearKey1.0\">\n        <cenc:default_KID>9ab40503-e44b-4802-9325-6257542f2299</cenc:default_KID>\n        <dashif:laurl xmlns:dashif=\"https://dashif.org/CPS\"\n          licenseType=\"temporary\">"

/-- Literal chunk 3 of the MPD template in `buildMpd`. -/
def mpdChunk3 : String :=
  "</dashif:laurl>\n      </ContentProtection>\n      <ContentProtection\n        schemeIdUri=\"urn:mpeg:dash:mp4protection:2011\" value=\"cenc\"\n        cenc:default_KID=\"9ab40503-e44b-4802-9325-6257542f2299\"/>\n\n      <!-- 144p — 100 kbps -->\n      <Representation id=\"v1\" bandwidth=\"100000\" width=\"256\" height=\"144\" sar=\"1:1\">\n        "

/-- Literal chunk 4 of the MPD template in `buildMpd`. -/
def mpdChunk4 : String :=
  "</BaseURL>\n        <SegmentTemplate\n          initialization=\"v-0144p-0100k-libx264-init.mp4\"\n          media=\"v-0144p-0100k-libx264-$Number$.m4s\"\n          timescale=\"90000\" duration=\"250000\" startNumber=\"1\"/>\n      </Representation>\n\n      <!-- 240p — 250 kbps -->\n      <Representation id=\"v2\" bandwidth=\"250000\" width=\"424\" height=\"240\" sar=\"1:1\">\n        "

/-- Literal chunk 5 of the MPD template in `buildMpd`. -/
def mpdChunk5 : String :=
  "</BaseURL>\n        <SegmentTemplate\n          initialization=\"v-0240p-0250k-libx264-init.mp4\"\n          media=\"v-0240p-0250k-libx264-$Number$.m4s\"\n          timescale=\"90000\" duration=\"250000\" startNumber=\"1\"/>\n      </Representation>\n\n      <!-- 360p — 550 kbps -->\n      <Representation id=\"v3\" bandwidth=\"550000\" width=\"640\" height=\"360\" sar=\"1:1\">\n        "

/-- Literal chunk 6 of the MPD template in `buildMpd`. -/
def mpdChunk6 : String :=
  "</BaseURL>\n        <SegmentTemplate\n          initialization=\"v-0360p-0550k-libx264-init.mp4\"\n          media=\"v-0360p-0550k-libx264-$Number$.m4s\"\n          timescale=\"90000\" duration=\"250000\" startNumber=\"1\"/>\n      </Representation>\n\n      <!-- 480p — 1 Mbps -->\n      <Representation id=\"v4\" bandwidth=\"1000000\" width=\"854\" height=\"480\" sar=\"1:1\">\n        "

/-- Literal chunk 7 of the MPD template in `buildMpd`. -/
def mpdChunk7 : String :=
  "</BaseURL>\n        <SegmentTemplate\n          initialization=\"v-0480p-1000k-libx264-init.mp4\"\n          media=\"v-0480p-1000k-libx264-$Number$.m4s\"\n          timescale=\"90000\" duration=\"250000\" startNumber=\"1\"/>\n      </Representation>\n\n      <!-- 720p — 1.8 Mbps -->\n      <Representation id=\"v5\" bandwidth=\"1800000\" width=\"1280\" height=\"720\" sar=\"1:1\">\n        "

/-- Literal chunk 8 of the MPD template in `buildMpd`. -/
def mpdChunk8 : String :=
  "</BaseURL>\n        <SegmentTemplate\n          initialization=\"v-0720p-1800k-libx264-init.mp4\"\n          media=\"v-0720p-1800k-libx264-$Number$.m4s\"\n          timescale=\"90000\" duration=\"250000\" startNumber=\"1\"/>\n      </Representation>\n\n    </AdaptationSet>\n\n    <!-- ── AUDIO TRACKS ────────────────────────────────── -->\n    <AdaptationSet id=\"2\" contentType=\"audio\" mimeType=\"audio/mp4\"\n                   codecs=\"mp4a.40.2\" lang=\"en\">\n\n      <ContentProtection\n        schemeIdUri=\"urn:uuid:e2719d58-a985-b3c9-781a-b030af78d30e\"\n        value=\"ClearKey1.0\">\n        <cenc:default_KID>9ab40503-e44b-4802-9325-6257542f2299</cenc:default_KID>\n        <dashif:laurl xmlns:dashif=\"https://dashif.org/CPS\"\n          licenseType=\"temporary\">"

/-- Literal chunk 9 of the MPD template in `buildMpd`. -/
def mpdChunk9 : String :=
  "</dashif:laurl>\n      </ContentProtection>\n\n      <!-- English Stereo 128kbps -->\n      <Representation id=\"a1\" bandwidth=\"128000\">\n        "

/-- Literal chunk 10 of the MPD template in `buildMpd`. -/
def mpdChunk10 : String :=
  "</BaseURL>\n        <SegmentTemplate\n          initialization=\"a-0128k-aac-init.mp4\"\n          media=\"a-0128k-aac-$Number$.m4s\"\n          timescale=\"44100\" duration=\"177408\" startNumber=\"1\"/>\n      </Representation>\n\n      <!-- English Stereo 64kbps -->\n      <Representation id=\"a2\" bandwidth=\"64000\">\n        "

/-- Literal chunk 11 of the MPD template in `buildMpd`. -/
def mpdChunk11 : String :=
  "</BaseURL>\n        <SegmentTemplate\n          initialization=\"a-0064k-aac-init.mp4\"\n          media=\"a-0064k-aac-$Number$.m4s\"\n          timescale=\"44100\" duration=\"177408\" startNumber=\"1\"/>\n      </Representation>\n\n    </AdaptationSet>\n\n    <!-- ── SUBTITLES ───────────────────────────────────── -->\n    <AdaptationSet id=\"3\" contentType=\"text\" mimeType=\"text/vtt\" lang=\"en\">\n      <Representation id=\"s1\" bandwidth=\"1000\">\n        "

/-- Literal chunk 12 of the MPD template in `buildMpd`. -/
def mpdChunk12 : String :=
  "</BaseURL>\n        <SegmentTemplate media=\"angel_one_en-$Number$.vtt\"\n          timescale=\"1\" duration=\"10\" startNumber=\"1\"/>\n      </Representation>\n    </AdaptationSet>\n\n  </Period>\n</MPD>"

/-- The `buildMpd(host, cdnToken)`: the DASH MPD template with the base
delivery URL interpolated into all eight representations (literal chunks of
the template are split at the interpolation points). -/
def buildMpd (host cdnToken : String) : String :=
  mpdChunk0
    ++ cdnToken.take 20
    ++ mpdChunk1
    ++ licUrl host
    ++ mpdChunk2
    ++ licUrl host
    ++ mpdChunk3
    ++ "<BaseURL>"
    ++ segBase host cdnToken
    ++ mpdChunk4
    ++ "<BaseURL>"
    ++ segBase host cdnToken
    ++ mpdChunk5
    ++ "<BaseURL>"
    ++ segBase host cdnToken
    ++ mpdChunk6
    ++ "<BaseURL>"
    ++ segBase host cdnToken
    ++ mpdChunk7
    ++ "<BaseURL>"
    ++ segBase host cdnToken
    ++ mpdChunk8
    ++ licUrl host
    ++ mpdChunk9
    ++ "<BaseURL>"
    ++ segBase host cdnToken
    ++ mpdChunk10
    ++ "<BaseURL>"
    ++ segBase host cdnToken
    ++ mpdChunk11
    ++ "<BaseURL>"
    ++ segBase host cdnToken
    ++ "subtitles/"
    ++ mpdChunk12

/-- JavaScript falsiness of an optional string (`undefined` or `""`). -/
def falsy (o : Option String) : Bool :=
  match o with
  | none => true
  | some s => s == ""

/-- Response of `POST /login`. -/
inductive LoginResp where
  | failure (status : Nat) (message : String)
  | success (token userId : String) (expiresIn : Nat) (message : String)
  deriving Repr, DecidableEq

/-- The `POST /login` handler: 400 on a missing field, 401 on a wrong
password, otherwise issue a session token. -/
def login (md5hex : String → String) (username password : Option String)
    (ip : String) (now : Nat) (s : Store SessionData) :
    LoginResp × Store SessionData :=
  if falsy username || falsy password then
    (.failure 400 "username and password required", s)
  else
    let u := username.getD ""
    let p := password.getD ""
    if List.lookup u USERS ≠ some p then
      (.failure 401 "Invalid credentials", s)
    else
      let r := createSessionToken md5hex u ip now s
      (.success r.1 u (SESSION_TTL / 1000)
        ("Welcome " ++ u ++ "! Session valid for 1 hour."), r.2)

/-- The `POST /logout` handler (unconditional idempotent delete). -/
def logout (token : Option String) (s : Store SessionData) :
    Store SessionData :=
  if falsy token then s else s.erase (token.getD "")

/-- Response of `GET /api/session/:token`. -/
inductive SessionInfoResp where
  | invalid
  | info (userId : String) (remaining : Nat) (expiresAtMs : Nat)
      (token : String)
  deriving Repr, DecidableEq

/-- The `Math.max(0, Math.round((expiresAt - Date.now()) / 1000))`: when the
record is not yet expired this is the rounded remaining seconds, otherwise
the rounded value is nonpositive and the clamp yields zero. -/
def clampedRemaining (exp now : Nat) : Nat :=
  if now ≤ exp then (exp - now + 500) / 1000 else 0

/-- The `GET /api/session/:token` handler: presence check only, no expiry
check and no deletion. -/
def sessionInfo (s : Store SessionData) (token : String) (now : Nat) :
    SessionInfoResp × Store SessionData :=
  match s.get token with
  | none => (.invalid, s)
  | some r =>
    (.info r.userId (clampedRemaining r.expiresAt now) r.expiresAt token, s)

/-- Response of `GET /proxy/:channel`. -/
inductive GateResp where
  | noToken (status : Nat) (error : String)
  | denied (status : Nat) (error : String)
  | redirect (status : Nat) (url : String) (sessionRemaining : Nat)
      (cdnServer : String)
  deriving Repr, DecidableEq

/-- The `GET /proxy/:channel` handler: validate the session token, pick a
CDN server (`pick` models `Math.floor(Math.random() * CDN_POOL.length)`),
mint a CDN token and redirect to the manifest URL. -/
def proxyGate (sha : String → String) (coin : Bool) (pick : Fin 4)
    (channel : String) (token : Option String) (host : String) (now : Nat)
    (sess : Store SessionData) (cdn : Store CdnData) :
    GateResp × Store SessionData × Store CdnData :=
  if falsy token then (.noToken 401 "No session token provided", sess, cdn)
  else
    let tok := token.getD ""
    match checkSessionToken sess tok now with
    | (.invalid reason, sess2) =>
      (.denied 403 ("Access denied: " ++ reason), sess2, cdn)
    | (.valid r, sess2) =>
      let cdnServer := CDN_POOL.getD pick.val ""
      let c := createCdnToken sha coin tok cdnServer channel now cdn
      let remaining := roundSecs r.expiresAt now
      let url := "http://" ++ host ++ "/cdn/" ++ encodeURIComponent c.1
        ++ "/manifest.mpd"
      (.redirect 302 url remaining cdnServer, sess2, c.2)

/-- Outcome of `GET /cdn/:cdnToken/seg/*`: either an immediate response or
a proxied request to the upstream origin. -/
inductive SegResp where
  | respond (status : Nat) (body : String)
  | proxyTo (hostname : String) (path : String)
  deriving Repr, DecidableEq

/-- Substring test on character lists (JavaScript `String.includes`). -/
def listIncl (pat : List Char) : List Char → Bool
  | [] => pat.isEmpty
  | c :: rest => pat.isPrefixOf (c :: rest) || listIncl pat rest

/-- JavaScript `s.includes(pat)`. -/
def strIncludes (s pat : String) : Bool := listIncl pat.data s.data

/-- JavaScript `s.endsWith(pat)`. -/
def strEndsWith (s pat : String) : Bool := List.isSuffixOf pat.data s.data

/-- The `GET /cdn/:cdnToken/seg/*` handler: validate the CDN token (fixed
denial body), reject subtitle paths with an empty 404, otherwise proxy to
the upstream origin. -/
def cdnSeg (cdnToken segPath : String) (now : Nat) (st : Store CdnData) :
    SegResp × Store CdnData :=
  match checkCdnToken st cdnToken now with
  | (.invalid _, st2) =>
    (.respond 403 "CDN token expired — reload player", st2)
  | (.valid _ _, st2) =>
    if strIncludes segPath "subtitles" || strEndsWith segPath ".vtt" then
      (.respond 404 "", st2)
    else
      (.proxyTo UPSTREAM (UPSTREAM_BASE ++ "/" ++ segPath), st2)


/-- Response of `GET /cdn/:cdnToken/manifest.mpd`. -/
inductive ManifestResp where
  | deny (status : Nat) (body : String)
  | ok (body : String) (secsLeft : Nat) (cdnServer : String)
  deriving Repr, DecidableEq

/-- The denial body of the manifest endpoint: the template literal with the
validator reason interpolated, then `trim()`. -/
def manifestDenyBody (reason : String) : String :=
  jsTrim ("\n      CDN Error: " ++ reason
    ++ "\n      The CDN token is only valid for 60 seconds."
    ++ "\n      Go back to the player and reload — a fresh token will be generated.\n    ")

/-- The `GET /cdn/:cdnToken/manifest.mpd` handler: validate the CDN token,
then return the generated MPD. -/
def cdnManifest (cdnToken host : String) (now : Nat) (st : Store CdnData) :
    ManifestResp × Store CdnData :=
  match checkCdnToken st cdnToken now with
  | (.invalid reason, st2) => (.deny 403 (manifestDenyBody reason), st2)
  | (.valid d secs, st2) => (.ok (buildMpd host cdnToken) secs d.cdnServer, st2)

/-- One pass of the cleanup interval over `sessionStore`: delete every
record with `now > v.expiresAt`. -/
def sweepSessions (now : Nat) (s : Store SessionData) : Store SessionData :=
  s.filter (fun kv => !(decide (now > kv.2.expiresAt)))

/-- One pass of the cleanup interval over `cdnTokenStore`. -/
def sweepCdn (now : Nat) (st : Store CdnData) : Store CdnData :=
  st.filter (fun kv => !(decide (now > kv.2.expiresAt)))

/-- The whole `setInterval` cleanup body: sweep both stores and count the
removed records (`cleaned`). -/
def cleanup (now : Nat) (sess : Store SessionData) (cdn : Store CdnData) :
    Store SessionData × Store CdnData × Nat :=
  let s := sweepSessions now sess
  let c := sweepCdn now cdn
  (s, c, (sess.length - s.length) + (cdn.length - c.length))

/-! ### Store lemmas -/

theorem lookup_filter_ne {α : Type} (tl : List (String × α)) (k : String) :
    List.lookup k (tl.filter (fun kv => kv.1 != k)) = none := by
  induction tl with
  | nil => rfl
  | cons hd tl ih =>
    obtain ⟨a, b⟩ := hd
    by_cases h : a = k
    · simp [List.filter_cons, h, ih]
    · have hb : (a != k) = true := by simp [h]
      have hk : (k == a) = false := by
        simpa using fun e => h e.symm
      simp [List.filter_cons, hb, List.lookup, hk, ih]

theorem get_set_self {α : Type} (s : Store α) (k : String) (v : α) :
    (s.set k v).get k = some v := by
  simp [Store.set, Store.get, List.lookup]

theorem get_erase_self {α : Type} (s : Store α) (k : String) :
    (s.erase k).get k = none := by
  simpa [Store.erase, Store.get] using lookup_filter_ne s k

theorem lookup_none_filter {α : Type} (p : String × α → Bool)
    (l : List (String × α)) (k : String) (h : List.lookup k l = none) :
    List.lookup k (l.filter p) = none := by
  induction l with
  | nil => rfl
  | cons hd tl ih =>
    obtain ⟨a, b⟩ := hd
    cases hka : (k == a) with
    | true => simp [List.lookup, hka] at h
    | false =>
      have h2 : List.lookup k tl = none := by
        simpa [List.lookup, hka] using h
      by_cases hp : p (a, b) = true
      · simp [List.filter_cons, hp, List.lookup, hka, ih h2]
      · simp only [List.filter_cons, hp, if_false, Bool.false_eq_true,
          if_neg]
        exact ih h2

theorem get_sweep_none {s : Store SessionData} {tok : String}
    {r : SessionData} {now : Nat} (hnd : (s.map Prod.fst).Nodup)
    (hget : s.get tok = some r) (hexp : now > r.expiresAt) :
    (sweepSessions now s).get tok = none := by
  induction s with
  | nil => simp [Store.get] at hget
  | cons hd tl ih =>
    obtain ⟨a, b⟩ := hd
    simp only [List.map_cons, List.nodup_cons] at hnd
    obtain ⟨hna, hndtl⟩ := hnd
    cases hka : (tok == a) with
    | true =>
      have ha : tok = a := by simpa using hka
      have hb : b = r := by
        simpa [Store.get, List.lookup, hka] using hget
      subst hb
      have hdrop : (!(decide (now > b.expiresAt))) = false := by
        simp [hexp]
      have htl : List.lookup tok tl = none := by
        rw [List.lookup_eq_none_iff]
        intro p hp
        have : p.1 ∈ tl.map Prod.fst := List.mem_map_of_mem _ hp
        have hpa : p.1 ≠ a := fun e => hna (e ▸ this)
        simpa [ha] using fun e => hpa e.symm
      simp only [sweepSessions, List.filter_cons, hdrop, Bool.false_eq_true,
        if_neg, Store.get]
      exact lookup_none_filter _ tl tok htl
    | false =>
      have hget2 : Store.get tl tok = some r := by
        simpa [Store.get, List.lookup, hka] using hget
      have ihres := ih hndtl hget2
      by_cases hk : (!(decide (now > b.expiresAt))) = true
      · simpa [sweepSessions, List.filter_cons, hk, Store.get, List.lookup,
          hka] using ihres
      · simpa [sweepSessions, List.filter_cons, hk] using ihres

theorem filter_self_idem {α : Type} (p : α → Bool) (l : List α) :
    (l.filter p).filter p = l.filter p := by
  induction l with
  | nil => rfl
  | cons a l ih => by_cases h : p a <;> simp [List.filter_cons, h, ih]

/-! ### Decimal rendering lemmas -/

/-- Value of a decimal digit list, used to invert `toDecimal`. -/
def ofDecimal (l : List Char) : Nat :=
  l.foldl (fun a c => a * 10 + (c.toNat - 48)) 0

theorem digitChar_toNat {d : Nat} (h : d < 10) :
    (Nat.digitChar d).toNat = d + 48 := by
  interval_cases d <;> rfl

theorem digitChar_ne_colon {d : Nat} (h : d < 10) :
    Nat.digitChar d ≠ ':' := by
  interval_cases d <;> decide

theorem ofDecimal_toDecimalAux :
    ∀ fuel n : Nat, n < fuel → ofDecimal (toDecimalAux fuel n) = n := by
  intro fuel
  induction fuel with
  | zero => intro n h; omega
  | succ fuel ih =>
    intro n h
    simp only [toDecimalAux]
    by_cases h10 : n < 10
    · rw [if_pos h10]
      simp [ofDecimal, List.foldl, digitChar_toNat h10]
    · rw [if_neg h10]
      have hd : n / 10 < n := Nat.div_lt_self (by omega) (by omega)
      have hlt : n / 10 < fuel := by omega
      have hm : (Nat.digitChar (n % 10)).toNat = n % 10 + 48 :=
        digitChar_toNat (Nat.mod_lt _ (by omega))
      have hfold := ih (n / 10) hlt
      simp only [ofDecimal] at hfold ⊢
      rw [List.foldl_append]
      simp [hfold, hm]
      omega

theorem ofDecimal_toDecimal (n : Nat) : ofDecimal (toDecimal n) = n :=
  ofDecimal_toDecimalAux (n + 1) n (by omega)

theorem toDecimal_inj {m n : Nat} (h : toDecimal m = toDecimal n) : m = n := by
  rw [← ofDecimal_toDecimal m, h, ofDecimal_toDecimal]

theorem toDecimalAux_ne_colon :
    ∀ fuel n : Nat, ∀ c ∈ toDecimalAux fuel n, c ≠ ':' := by
  intro fuel
  induction fuel with
  | zero => intro n c hc; simp [toDecimalAux] at hc
  | succ fuel ih =>
    intro n c hc
    simp only [toDecimalAux] at hc
    by_cases h10 : n < 10
    · rw [if_pos h10] at hc
      simp only [List.mem_singleton] at hc
      subst hc; exact digitChar_ne_colon h10
    · rw [if_neg h10] at hc
      rcases List.mem_append.mp hc with hc | hc
      · exact ih (n / 10) c hc
      · simp only [List.mem_singleton] at hc
        subst hc; exact digitChar_ne_colon (Nat.mod_lt _ (by omega))

theorem toDecimal_ne_colon (n : Nat) : ∀ c ∈ toDecimal n, c ≠ ':' :=
  toDecimalAux_ne_colon (n + 1) n

/-! ### Raw hash-input injectivity -/

theorem takeWhile_append_colon (a rest : List Char)
    (ha : ∀ c ∈ a, c ≠ ':') :
    (a ++ ':' :: rest).takeWhile (fun c => c != ':') = a := by
  induction a with
  | nil => simp [List.takeWhile]
  | cons c a ih =>
    have hc : c ≠ ':' := ha c (List.mem_cons_self _ _)
    have hb : (c != ':') = true := by simp [hc]
    simp only [List.cons_append, List.takeWhile_cons, hb, if_true]
    rw [ih (fun x hx => ha x (List.mem_cons_of_mem _ hx))]

theorem seg_split {a b x y : List Char} (ha : ∀ c ∈ a, c ≠ ':')
    (hb : ∀ c ∈ b, c ≠ ':') (h : a ++ ':' :: x = b ++ ':' :: y) :
    a = b ∧ x = y := by
  have h1 : a = b := by
    rw [← takeWhile_append_colon a x ha, ← takeWhile_append_colon b y hb, h]
  subst h1
  refine ⟨rfl, ?_⟩
  have h2 := List.append_cancel_left h
  exact (List.cons.injEq _ _ _ _).mp h2 |>.2

theorem mk_data (l : List Char) : (String.mk l).data = l := rfl

theorem colon_data : (":" : String).data = [':'] := rfl

theorem sessionRaw_data (u ip : String) (ts : Nat) :
    (sessionRaw u ip ts).data =
      u.data ++ ':' :: (ip.data ++ ':' ::
        (toDecimal ts ++ ':' :: SECRET.data)) := by
  simp [sessionRaw, natStr, String.data_append, colon_data, mk_data,
    List.append_assoc]

theorem cdnRaw_data (st srv ch : String) (ts : Nat) :
    (cdnRaw st srv ch ts).data =
      st.data ++ ':' :: (srv.data ++ ':' :: (ch.data ++ ':' ::
        (toDecimal ts ++ ':' :: CDN_SECRET.data))) := by
  simp [cdnRaw, natStr, String.data_append, colon_data, mk_data,
    List.append_assoc]

theorem secret_rev_ne_colon : ∀ c ∈ SECRET.data.reverse, c ≠ ':' := by
  decide

theorem sessionRaw_inj {u1 ip1 u2 ip2 : String} {ts1 ts2 : Nat}
    (h1 : ∀ c ∈ u1.data, c ≠ ':') (h2 : ∀ c ∈ u2.data, c ≠ ':')
    (h : sessionRaw u1 ip1 ts1 = sessionRaw u2 ip2 ts2) :
    u1 = u2 ∧ ip1 = ip2 ∧ ts1 = ts2 := by
  have hd := congrArg String.data h
  rw [sessionRaw_data, sessionRaw_data] at hd
  obtain ⟨hu, hrest⟩ := seg_split h1 h2 hd
  have hrev := congrArg List.reverse hrest
  simp only [List.reverse_append, List.reverse_cons, List.append_assoc,
    List.cons_append, List.nil_append] at hrev
  obtain ⟨-, hrest2⟩ := seg_split secret_rev_ne_colon secret_rev_ne_colon hrev
  have hD1 : ∀ c ∈ (toDecimal ts1).reverse, c ≠ ':' := by
    intro c hc; exact toDecimal_ne_colon ts1 c (List.mem_reverse.mp hc)
  have hD2 : ∀ c ∈ (toDecimal ts2).reverse, c ≠ ':' := by
    intro c hc; exact toDecimal_ne_colon ts2 c (List.mem_reverse.mp hc)
  obtain ⟨hD, hI⟩ := seg_split hD1 hD2 hrest2
  refine ⟨String.ext hu, String.ext ?_, toDecimal_inj ?_⟩
  · exact List.reverse_injective hI
  · exact List.reverse_injective hD

theorem cdnRaw_ts_inj {st srv ch : String} {ts1 ts2 : Nat}
    (h : cdnRaw st srv ch ts1 = cdnRaw st srv ch ts2) : ts1 = ts2 := by
  have hd := congrArg String.data h
  rw [cdnRaw_data, cdnRaw_data] at hd
  have h1 := List.append_cancel_left hd
  have h2 := ((List.cons.injEq _ _ _ _).mp h1).2
  have h3 := List.append_cancel_left h2
  have h4 := ((List.cons.injEq _ _ _ _).mp h3).2
  have h5 := List.append_cancel_left h4
  have h6 := ((List.cons.injEq _ _ _ _).mp h5).2
  have hcd1 : ∀ c ∈ toDecimal ts1, c ≠ ':' := toDecimal_ne_colon ts1
  have hcd2 : ∀ c ∈ toDecimal ts2, c ≠ ':' := toDecimal_ne_colon ts2
  obtain ⟨hD, -⟩ := seg_split hcd1 hcd2 h6
  exact toDecimal_inj hD

/-- A valid `checkCdnToken` result determines the whole call: the record was
found, not expired, and the store is returned unchanged. -/
theorem checkCdn_valid_eq {st : Store CdnData} {tok : String} {now : Nat}
    {d : CdnData} {sl : Nat}
    (hok : (checkCdnToken st tok now).1 = .valid d sl) :
    checkCdnToken st tok now = (.valid d sl, st) := by
  cases hget : st.get tok with
  | none => simp [checkCdnToken, hget] at hok
  | some t =>
    by_cases hx : now > t.expiresAt
    · simp [checkCdnToken, hget, hx] at hok
    · simp [checkCdnToken, hget, hx] at hok
      obtain ⟨h1, h2⟩ := hok
      subst h1; subst h2
      simp [checkCdnToken, hget, hx]

/-! ### Claims -/

/-- C1: a session credential validated strictly after its expiry instant
yields the reason `token expired` (never `token not found`) and is removed
as a side effect; every later validation (after the lazy deletion, or after
a sweep past the expiry) yields `token not found`, and no later validation
ever returns a valid result. -/
theorem c1_expired_then_not_found (s : Store SessionData) (tok : String)
    (r : SessionData) (now now2 now3 : Nat)
    (hget : s.get tok = some r) (hexp : now > r.expiresAt)
    (hnd : (s.map Prod.fst).Nodup) (hsweep : now3 > r.expiresAt) :
    (checkSessionToken s tok now).1 = .invalid "token expired" ∧
    (checkSessionToken s tok now).2.get tok = none ∧
    checkSessionToken (checkSessionToken s tok now).2 tok now2
      = (.invalid "token not found", (checkSessionToken s tok now).2) ∧
    (∀ r2, (checkSessionToken (checkSessionToken s tok now).2 tok now2).1
      ≠ .valid r2) ∧
    (checkSessionToken (sweepSessions now3 s) tok now2).1
      = .invalid "token not found" := by
  have h1 : checkSessionToken s tok now
      = (.invalid "token expired", s.erase tok) := by
    simp [checkSessionToken, hget, hexp]
  have h2 : (s.erase tok).get tok = none := get_erase_self s tok
  refine ⟨by rw [h1], by rw [h1]; exact h2, ?_, ?_, ?_⟩
  · rw [h1]; simp [checkSessionToken, h2]
  · rw [h1]; simp [checkSessionToken, h2]
  · have h3 := get_sweep_none hnd hget hsweep
    simp [checkSessionToken, h3]

/-- Witness for `c1_expired_then_not_found` at a concrete store. -/
theorem c1_witness :
    (checkSessionToken [("t", ⟨"demo", "ip", 0, 5⟩)] "t" 6).1
      = .invalid "token expired" ∧
    (checkSessionToken [("t", ⟨"demo", "ip", 0, 5⟩)] "t" 6).2.get "t"
      = none := by
  have h := c1_expired_then_not_found [("t", ⟨"demo", "ip", 0, 5⟩)] "t"
    ⟨"demo", "ip", 0, 5⟩ 6 7 8 (by decide) (by decide) (by decide)
    (by decide)
  exact ⟨h.1, h.2.1⟩

/-- C9: at the exact expiry instant (`now = expiresAt`) both validators
still return a valid result, because both comparisons are strict. -/
theorem c9_boundary_still_valid (s : Store SessionData) (c : Store CdnData)
    (tok ctok : String) (r : SessionData) (d : CdnData)
    (hs : s.get tok = some r) (hc : c.get ctok = some d) :
    checkSessionToken s tok r.expiresAt = (.valid r, s) ∧
    checkCdnToken c ctok d.expiresAt = (.valid d 0, c) := by
  constructor
  · simp [checkSessionToken, hs]
  · simp [checkCdnToken, hc, roundSecs]

/-- Witness for `c9_boundary_still_valid` at concrete stores. -/
theorem c9_witness :
    checkSessionToken [("t", ⟨"demo", "ip", 0, 5⟩)] "t" 5
      = (.valid ⟨"demo", "ip", 0, 5⟩, [("t", ⟨"demo", "ip", 0, 5⟩)]) ∧
    checkCdnToken [("c", ⟨"t", "cs5", "ch", 0, 9⟩)] "c" 9
      = (.valid ⟨"t", "cs5", "ch", 0, 9⟩ 0,
          [("c", ⟨"t", "cs5", "ch", 0, 9⟩)]) :=
  c9_boundary_still_valid [("t", ⟨"demo", "ip", 0, 5⟩)]
    [("c", ⟨"t", "cs5", "ch", 0, 9⟩)] "t" "c" ⟨"demo", "ip", 0, 5⟩
    ⟨"t", "cs5", "ch", 0, 9⟩ (by decide) (by decide)

/-- C10: the session introspection endpoint reports a record that is past
its expiry instant but still stored as valid (it checks only presence),
performs no deletion, and clamps the reported remaining seconds at zero. -/
theorem c10_introspection_ignores_expiry (s : Store SessionData)
    (tok : String) (r : SessionData) (now : Nat)
    (hget : s.get tok = some r) (hexp : now > r.expiresAt) :
    sessionInfo s tok now = (.info r.userId 0 r.expiresAt tok, s) := by
  have hn : ¬ now ≤ r.expiresAt := by omega
  simp [sessionInfo, hget, clampedRemaining, hn]

/-- Witness for `c10_introspection_ignores_expiry`. -/
theorem c10_witness :
    sessionInfo [("t", ⟨"demo", "ip", 0, 5⟩)] "t" 6
      = (.info "demo" 0 5 "t", [("t", ⟨"demo", "ip", 0, 5⟩)]) :=
  c10_introspection_ignores_expiry [("t", ⟨"demo", "ip", 0, 5⟩)] "t"
    ⟨"demo", "ip", 0, 5⟩ 6 (by decide) (by decide)

/-- C6: running the cleanup a second time at the same instant, with no new
issuances in between, leaves both stores unchanged and removes zero
records. -/
theorem c6_cleanup_idempotent (now : Nat) (sess : Store SessionData)
    (cdn : Store CdnData) :
    cleanup now (cleanup now sess cdn).1 (cleanup now sess cdn).2.1
      = ((cleanup now sess cdn).1, (cleanup now sess cdn).2.1, 0) := by
  simp [cleanup, sweepSessions, sweepCdn, filter_self_idem]

/-- C5: when the CDN token validates, a segment path carrying the subtitle
marker (a `subtitles` component or a `.vtt` suffix) is answered with an
empty 404 and no request is made to the upstream origin. -/
theorem c5_subtitles_not_proxied (st : Store CdnData) (tok path : String)
    (now : Nat) (d : CdnData) (sl : Nat)
    (hok : (checkCdnToken st tok now).1 = .valid d sl)
    (hsub : (strIncludes path "subtitles" || strEndsWith path ".vtt")
      = true) :
    cdnSeg tok path now st = (.respond 404 "", st) ∧
    ∀ h p, (cdnSeg tok path now st).1 ≠ .proxyTo h p := by
  have heq := checkCdn_valid_eq hok
  have h1 : cdnSeg tok path now st = (.respond 404 "", st) := by
    simp [cdnSeg, heq, hsub]
  exact ⟨h1, by rw [h1]; intro h p; simp⟩

/-- Witness for `c5_subtitles_not_proxied`. -/
theorem c5_witness :
    cdnSeg "c" "subtitles/angel_one_en-1.vtt" 3
        [("c", ⟨"t", "cs5", "ch", 0, 9⟩)]
      = (.respond 404 "", [("c", ⟨"t", "cs5", "ch", 0, 9⟩)]) :=
  (c5_subtitles_not_proxied [("c", ⟨"t", "cs5", "ch", 0, 9⟩)] "c"
    "subtitles/angel_one_en-1.vtt" 3 ⟨"t", "cs5", "ch", 0, 9⟩ 0
    (by decide) (by decide)).1

set_option maxRecDepth 100000 in
/-- C2: the claim that the delivery expiry never exceeds the session expiry
fails on the code — a delivery credential issued 1 second before session
expiry (session valid at issuance) is stored with expiry 59 seconds past
the session expiry. -/
theorem c2_counterexample :
    (checkSessionToken [("S", ⟨"demo", "ip", 0, 3600000⟩)] "S" 3599000).1
      = .valid ⟨"demo", "ip", 0, 3600000⟩ ∧
    ((createCdnToken (fun r => r) true "S" "cs5" "ch" 3599000 []).2.get
        (createCdnToken (fun r => r) true "S" "cs5" "ch" 3599000 []).1)
      = some ⟨"S", "cs5", "ch", 3599000, 3659000⟩ ∧
    3659000 > 3600000 := by
  refine ⟨by decide, by decide, by decide⟩

/-- C2 (amended): a delivery credential issued while the session validates
is stored with absolute expiry exactly `issuance time + CDN_TTL`,
independent of the session's remaining time; it stays within the session
window exactly when issued at least `CDN_TTL` before the session expiry. -/
theorem c2_amended_expiry_is_issuance_plus_ttl (sha : String → String)
    (coin : Bool) (stok srv ch : String) (now : Nat)
    (sess : Store SessionData) (r : SessionData) (cst : Store CdnData)
    (_hvalid : (checkSessionToken sess stok now).1 = .valid r) :
    ((createCdnToken sha coin stok srv ch now cst).2.get
        (createCdnToken sha coin stok srv ch now cst).1)
      = some ⟨stok, srv, ch, now, now + CDN_TTL⟩ ∧
    ((⟨stok, srv, ch, now, now + CDN_TTL⟩ : CdnData).expiresAt ≤ r.expiresAt
      ↔ now + CDN_TTL ≤ r.expiresAt) := by
  constructor
  · simp only [createCdnToken]
    exact get_set_self cst _ _
  · exact Iff.rfl

/-- Witness for `c2_amended_expiry_is_issuance_plus_ttl`. -/
theorem c2_amended_witness :
    ((createCdnToken (fun r => r) true "S" "cs5" "ch" 3599000 []).2.get
        (createCdnToken (fun r => r) true "S" "cs5" "ch" 3599000 []).1)
      = some ⟨"S", "cs5", "ch", 3599000, 3599000 + CDN_TTL⟩ :=
  (c2_amended_expiry_is_issuance_plus_ttl (fun r => r) true "S" "cs5" "ch"
    3599000 [("S", ⟨"demo", "ip", 0, 3600000⟩)] ⟨"demo", "ip", 0, 3600000⟩
    [] (by decide)).1

/-- C3: the claim that every credential-denial body distinguishes the
expired case from the not-found case fails on the segment endpoint, which
sends the same fixed body for both; the underlying validator reasons do
differ at these two inputs. -/
theorem c3_counterexample :
    (cdnSeg "c" "v-init.mp4" 10 []).1
      = (cdnSeg "c" "v-init.mp4" 10 [("c", ⟨"t", "cs5", "ch", 0, 5⟩)]).1 ∧
    (cdnSeg "c" "v-init.mp4" 10 []).1
      = .respond 403 "CDN token expired — reload player" ∧
    (checkCdnToken [] "c" 10).1
      = .invalid "CDN token not found — may have expired" ∧
    (checkCdnToken [("c", ⟨"t", "cs5", "ch", 0, 5⟩)] "c" 10).1
      = .invalid "CDN token expired (60s limit reached)" := by
  refine ⟨by decide, by decide, by decide, by decide⟩

set_option maxRecDepth 100000 in
/-- C3 (amended): the gate and manifest endpoints embed the validator
reason in the denial body and so distinguish not-found from expired; the
segment endpoint sends one fixed body for both cases. -/
theorem c3_amended_distinguish_except_segment :
    (cdnManifest "c" "h" 10 []).1
      = .deny 403 (manifestDenyBody "CDN token not found — may have expired")
      ∧
    (cdnManifest "c" "h" 10 [("c", ⟨"t", "cs5", "ch", 0, 5⟩)]).1
      = .deny 403 (manifestDenyBody "CDN token expired (60s limit reached)")
      ∧
    manifestDenyBody "CDN token not found — may have expired"
      ≠ manifestDenyBody "CDN token expired (60s limit reached)" ∧
    (proxyGate (fun r => r) true ⟨0, by decide⟩ "ch" (some "S") "h" 10
        [] []).1
      = .denied 403 ("Access denied: " ++ "token not found") ∧
    (proxyGate (fun r => r) true ⟨0, by decide⟩ "ch" (some "S") "h" 10
        [("S", ⟨"demo", "ip", 0, 5⟩)] []).1
      = .denied 403 ("Access denied: " ++ "token expired") ∧
    ("Access denied: " ++ "token not found")
      ≠ ("Access denied: " ++ "token expired") ∧
    (cdnSeg "c" "p" 10 []).1
      = (cdnSeg "c" "p" 10 [("c", ⟨"t", "cs5", "ch", 0, 5⟩)]).1 := by
  refine ⟨by decide, by decide, by decide, by decide, by decide, by decide,
    by decide⟩

/-- Dropping the equal-length added tag of two tokens of the shape
`prefixTag ++ "@" ++ body` recovers equality of the bodies. -/
theorem tok_body_eq {p1 p2 b1 b2 : String}
    (hl : p1.data.length = p2.data.length)
    (h : p1 ++ "@" ++ b1 = p2 ++ "@" ++ b2) : b1 = b2 := by
  have hd := congrArg String.data h
  simp only [String.data_append] at hd
  have hinj := List.append_inj hd (by simp [hl])
  exact String.ext hinj.2

/-- C7: two CDN-token issuances with identical session token, server and
channel at different instants never return the same credential string,
provided the truncated digests of the two (distinct) raw hash inputs do not
collide. -/
theorem c7_issuances_never_collide (sha : String → String)
    (stok srv ch : String) (ts1 ts2 : Nat) (c1 c2 : Bool)
    (st1 st2 : Store CdnData) (hts : ts1 ≠ ts2)
    (hcoll : (sha (cdnRaw stok srv ch ts1)).take 36
        = (sha (cdnRaw stok srv ch ts2)).take 36
      → cdnRaw stok srv ch ts1 = cdnRaw stok srv ch ts2) :
    (createCdnToken sha c1 stok srv ch ts1 st1).1
      ≠ (createCdnToken sha c2 stok srv ch ts2 st2).1 := by
  intro he
  simp only [createCdnToken] at he
  have hlen : ((if c1 then "1ab" else "1aa") : String).data.length
      = ((if c2 then "1ab" else "1aa") : String).data.length := by
    cases c1 <;> cases c2 <;> rfl
  exact hts (cdnRaw_ts_inj (hcoll (tok_body_eq hlen he)))

set_option maxRecDepth 100000 in
/-- Witness for `c7_issuances_never_collide`. -/
theorem c7_witness :
    (createCdnToken (fun r => r) true "s" "cs5" "c" 0 []).1
      ≠ (createCdnToken (fun r => r) true "s" "cs5" "c" 1 []).1 :=
  c7_issuances_never_collide (fun r => r) "s" "cs5" "c" 0 1 true true [] []
    (by decide) (by decide)

/-- A successful association-list lookup locates a member. -/
theorem lookup_mem {α β : Type} [BEq α] [LawfulBEq α] {k : α} {v : β}
    {l : List (α × β)} (h : List.lookup k l = some v) : (k, v) ∈ l := by
  induction l with
  | nil => simp [List.lookup] at h
  | cons hd tl ih =>
    obtain ⟨a, b⟩ := hd
    cases hka : (k == a) with
    | true =>
      have h1 : k = a := by simpa using hka
      have h2 : b = v := by simpa [List.lookup, hka] using h
      subst h1; subst h2
      exact List.mem_cons_self _ _
    | false =>
      have h2 : List.lookup k tl = some v := by
        simpa [List.lookup, hka] using h
      exact List.mem_cons_of_mem _ (ih h2)

/-- Usernames of the fixed `USERS` table contain no colon. -/
theorem users_no_colon {u p : String}
    (h : List.lookup u USERS = some p) : ∀ c ∈ u.data, c ≠ ':' := by
  have hm := lookup_mem h
  simp only [USERS, List.mem_cons, List.mem_singleton, Prod.mk.injEq,
    List.not_mem_nil, or_false] at hm
  rcases hm with ⟨h1, -⟩ | ⟨h1, -⟩ | ⟨h1, -⟩ <;> subst h1 <;> decide

/-- C8: a login with a valid `(username, password)` pair succeeds and
returns a session credential not previously issued (for an injective hash,
and prior issuances from any other `(user, ip, timestamp)` login triple),
stored with absolute expiry exactly `issuance time + SESSION_TTL`. -/
theorem c8_login_fresh_exact_expiry (md5hex : String → String)
    (u p ip : String) (now : Nat) (s : Store SessionData)
    (priors : List String) (hinj : Function.Injective md5hex)
    (hu : List.lookup u USERS = some p)
    (hprior : ∀ t ∈ priors, ∃ u2 p2 ip2 ts2,
      List.lookup u2 USERS = some p2 ∧
      t = md5hex (sessionRaw u2 ip2 ts2) ∧ (u2, ip2, ts2) ≠ (u, ip, now)) :
    (login md5hex (some u) (some p) ip now s).1
      = .success (md5hex (sessionRaw u ip now)) u (SESSION_TTL / 1000)
          ("Welcome " ++ u ++ "! Session valid for 1 hour.") ∧
    md5hex (sessionRaw u ip now) ∉ priors ∧
    (login md5hex (some u) (some p) ip now s).2.get
        (md5hex (sessionRaw u ip now))
      = some ⟨u, ip, now, now + SESSION_TTL⟩ := by
  have hnee : u ≠ "" := by
    intro he; subst he; simp [USERS, List.lookup] at hu
  have hpe : p ≠ "" := by
    intro he; subst he
    have hm := lookup_mem hu
    simp only [USERS, List.mem_cons, List.not_mem_nil, or_false] at hm
    rcases hm with h | h | h <;>
      exact absurd ((Prod.mk.injEq _ _ _ _).mp h).2 (by decide)
  have hf1 : falsy (some u) = false := by simp [falsy, hnee]
  have hf2 : falsy (some p) = false := by simp [falsy, hpe]
  have hl : login md5hex (some u) (some p) ip now s
      = (.success (md5hex (sessionRaw u ip now)) u (SESSION_TTL / 1000)
            ("Welcome " ++ u ++ "! Session valid for 1 hour."),
          s.set (md5hex (sessionRaw u ip now))
            ⟨u, ip, now, now + SESSION_TTL⟩) := by
    simp [login, hf1, hf2, hu, createSessionToken]
  refine ⟨by rw [hl], ?_, by rw [hl]; exact get_set_self s _ _⟩
  intro hmem
  obtain ⟨u2, p2, ip2, ts2, hu2, heq, hne⟩ := hprior _ hmem
  have hraw : sessionRaw u2 ip2 ts2 = sessionRaw u ip now := hinj heq.symm
  obtain ⟨e1, e2, e3⟩ := sessionRaw_inj (users_no_colon hu2)
    (users_no_colon hu) hraw
  exact hne (by simp [e1, e2, e3])

set_option maxRecDepth 100000 in
/-- Witness for `c8_login_fresh_exact_expiry`. -/
theorem c8_witness :
    (login (fun r => r) (some "demo") (some "demo123") "1.2.3.4" 0 []).1
      = .success (sessionRaw "demo" "1.2.3.4" 0) "demo"
          (SESSION_TTL / 1000)
          ("Welcome " ++ "demo" ++ "! Session valid for 1 hour.") ∧
    sessionRaw "demo" "1.2.3.4" 0 ∉ ([] : List String) ∧
    (login (fun r => r) (some "demo") (some "demo123") "1.2.3.4" 0 []).2.get
        (sessionRaw "demo" "1.2.3.4" 0)
      = some ⟨"demo", "1.2.3.4", 0, 0 + SESSION_TTL⟩ :=
  c8_login_fresh_exact_expiry (fun r => r) "demo" "demo123" "1.2.3.4" 0 []
    [] (fun a b h => h) (by decide) (by simp)

/-- C4: `buildMpd` is a pure function of the requesting host and the CDN
token (two calls with the same inputs are byte-identical), and the
generated manifest factors as eight `<BaseURL>` elements — five video, two
audio, one subtitle — each opening with the base delivery URL that embeds
the URL-encoded credential (the subtitle one continues with
`subtitles/`). -/
theorem c4_manifest_embeds_token (host tok : String) :
    (∀ host2 tok2, host2 = host → tok2 = tok →
      buildMpd host2 tok2 = buildMpd host tok) ∧
    segBase host tok
      = "http://" ++ host ++ "/cdn/" ++ encodeURIComponent tok ++ "/seg/" ∧
    ∃ g0 g1 g2 g3 g4 g5 g6 g7 g8 : String,
      buildMpd host tok
        = g0 ++ ("<BaseURL>" ++ segBase host tok) ++ g1
            ++ ("<BaseURL>" ++ segBase host tok) ++ g2
            ++ ("<BaseURL>" ++ segBase host tok) ++ g3
            ++ ("<BaseURL>" ++ segBase host tok) ++ g4
            ++ ("<BaseURL>" ++ segBase host tok) ++ g5
            ++ ("<BaseURL>" ++ segBase host tok) ++ g6
            ++ ("<BaseURL>" ++ segBase host tok) ++ g7
            ++ ("<BaseURL>" ++ segBase host tok ++ "subtitles/") ++ g8 := by
  refine ⟨fun host2 tok2 hh ht => by rw [hh, ht], rfl, ?_⟩
  refine ⟨mpdChunk0 ++ tok.take 20 ++ mpdChunk1 ++ licUrl host ++ mpdChunk2
      ++ licUrl host ++ mpdChunk3, mpdChunk4, mpdChunk5, mpdChunk6,
      mpdChunk7, mpdChunk8 ++ licUrl host ++ mpdChunk9, mpdChunk10,
      mpdChunk11, mpdChunk12, ?_⟩
  simp only [buildMpd, String.append_assoc]


/-- Witness for `c4_manifest_embeds_token` at a concrete host and token. -/
theorem c4_witness :
    segBase "example.com" "1ab@XYZ"
      = "http://" ++ "example.com" ++ "/cdn/"
          ++ encodeURIComponent "1ab@XYZ" ++ "/seg/" :=
  (c4_manifest_embeds_token "example.com" "1ab@XYZ").2.1

end Dashpipe
